import Mathlib

/-!
Shallow embedding of the ai-scheduler service (src/app.py and src/main.py).

Time is modelled at minute granularity: an *instant* is an integer number of
minutes since the Unix epoch (1970-01-01T00:00 UTC).  A timezone-aware Python
datetime is modelled as an instant together with the UTC offset (in minutes)
it is rendered with.  The external collaborators (the pytz zone database, the
dateutil fuzzy parser and the Cal.com upstream API) are black boxes per the
spec and are modelled as explicit parameters of the handlers.
-/

deriving instance DecidableEq for Except

/-- Floor division, matching Python `//` for a positive divisor. -/
def fdiv (a b : Int) : Int := Int.ediv a b

/-- Floor modulus, matching Python `%` for a positive divisor. -/
def fmod (a b : Int) : Int := Int.emod a b

/-- Days since 1970-01-01 of the civil date y-m-d (Gregorian, proleptic). -/
def daysFromCivil (y m d : Int) : Int :=
  let y' := if m ≤ 2 then y - 1 else y
  let era := fdiv y' 400
  let yoe := y' - era * 400
  let doy := fdiv (153 * (m + (if m > 2 then -3 else 9)) + 2) 5 + d - 1
  let doe := yoe * 365 + fdiv yoe 4 - fdiv yoe 100 + doy
  era * 146097 + doe - 719468

/-- Civil date (y, m, d) of a count of days since 1970-01-01. -/
def civilFromDays (z : Int) : Int × Int × Int :=
  let z' := z + 719468
  let era := fdiv z' 146097
  let doe := z' - era * 146097
  let yoe := fdiv (doe - fdiv doe 1460 + fdiv doe 36524 - fdiv doe 146096) 365
  let y := yoe + era * 400
  let doy := doe - (365 * yoe + fdiv yoe 4 - fdiv yoe 100)
  let mp := fdiv (5 * doy + 2) 153
  let d := doy - fdiv (153 * mp + 2) 5 + 1
  let m := mp + (if mp < 10 then 3 else -9)
  (y + (if m ≤ 2 then 1 else 0), m, d)

/-- Minutes since the epoch of the wall-clock time y-m-d hh:mm. -/
def epochMin (y m d hh mm : Int) : Int :=
  daysFromCivil y m d * 1440 + hh * 60 + mm

/-- Python `datetime.weekday()` of a wall-clock minute count: 0 = Monday, 6 = Sunday. -/
def pyWeekday (wall : Int) : Int := fmod (fdiv wall 1440 + 3) 7

/-- Python `datetime.hour` of a wall-clock minute count. -/
def pyHour (wall : Int) : Int := fdiv (fmod wall 1440) 60

/-- Python `strftime` directive for the full weekday name, indexed by `weekday()`. -/
def weekdayName (w : Int) : String :=
  if w = 0 then "Monday"
  else if w = 1 then "Tuesday"
  else if w = 2 then "Wednesday"
  else if w = 3 then "Thursday"
  else if w = 4 then "Friday"
  else if w = 5 then "Saturday"
  else "Sunday"

/-- A timezone-aware Python datetime: the UTC instant it denotes plus the UTC
offset (minutes) used to render it.  Its wall clock is `instant + offset`. -/
structure AwareDT where
  instant : Int
  offset : Int
deriving DecidableEq, Repr

/-- The external IANA timezone database (pytz), modelled as a black box:
which names it recognizes, the UTC offset it assigns to a UTC instant
(`astimezone`), and the offset it picks when localizing a naive wall time
(`localize`).  DST makes both offset maps instant-dependent. -/
structure TZDatabase where
  isKnown : String → Bool
  utcOffset : String → Int → Int
  localizeOffset : String → Int → Int

/-- Model of `dt.astimezone(tz)`: same instant, rendered in the zone's offset. -/
def astimezone (tzdb : TZDatabase) (zone : String) (dt : AwareDT) : AwareDT :=
  ⟨dt.instant, tzdb.utcOffset zone dt.instant⟩

/-- Model of `dt.astimezone(pytz.UTC)`: same instant, offset zero. -/
def astimezoneUTC (dt : AwareDT) : AwareDT := ⟨dt.instant, 0⟩

/-- Model of `is_available_slot(dt, timezone)` from src/app.py lines 20-36 and
src/main.py lines 26-38 (the two variants are textually identical in logic).
`pytz.timezone(timezone)` raises `UnknownTimeZoneError` on an unrecognized
name, modelled as the `Except.error` branch carrying the zone string. -/
def is_available_slot (tzdb : TZDatabase) (dt : AwareDT) (timezone : String) :
    Except String (Bool × String) :=
  if tzdb.isKnown timezone then
    let local_wall := (astimezone tzdb timezone dt).instant + (astimezone tzdb timezone dt).offset
    let weekday := pyWeekday local_wall
    let hour := pyHour local_wall
    if weekday ≥ 5 then
      .ok (false, "Not available on " ++ weekdayName weekday)
    else if hour < 9 ∨ hour ≥ 17 then
      .ok (false, "Outside business hours (9 AM - 5 PM). Requested: " ++ toString hour ++ ":00")
    else
      .ok (true, "Available")
  else
    .error timezone

/-- Two-digit zero padding, as Python does for date and time components. -/
def pad2 (n : Int) : String := if n < 10 then "0" ++ toString n else toString n

/-- Four-digit zero padding for the year. -/
def pad4 (n : Int) : String :=
  if n < 10 then "000" ++ toString n
  else if n < 100 then "00" ++ toString n
  else if n < 1000 then "0" ++ toString n
  else toString n

/-- Python rendering of a UTC-offset suffix, e.g. "+00:00" or "-05:00". -/
def offsetStr (off : Int) : String :=
  if off ≥ 0 then "+" ++ pad2 (fdiv off 60) ++ ":" ++ pad2 (fmod off 60)
  else "-" ++ pad2 (fdiv (-off) 60) ++ ":" ++ pad2 (fmod (-off) 60)

/-- Python rendering of an aware datetime with the given date/time separator:
`isoformat()` uses "T", `str()` uses " ".  Our model has minute granularity,
so the seconds field is always "00". -/
def dateTimeStr (sep : String) (dt : AwareDT) : String :=
  let wall := dt.instant + dt.offset
  let c := civilFromDays (fdiv wall 1440)
  let mins := fmod wall 1440
  pad4 c.1 ++ "-" ++ pad2 c.2.1 ++ "-" ++ pad2 c.2.2 ++ sep ++
    pad2 (fdiv mins 60) ++ ":" ++ pad2 (fmod mins 60) ++ ":00" ++ offsetStr dt.offset

/-- Python `datetime.isoformat()` on an aware datetime. -/
def isoformat (dt : AwareDT) : String := dateTimeStr "T" dt

/-- Python `str(datetime)` on an aware datetime (space separator). -/
def pyStr (dt : AwareDT) : String := dateTimeStr " " dt

/-- The result of the external fuzzy date parser (`dateutil.parser.parse`):
the wall-clock minutes it read from the text, plus the explicit UTC offset
the text carried, if any (`tzinfo`). -/
structure ParsedDate where
  wall : Int
  tzoffset : Option Int
deriving DecidableEq, Repr

/-- The parsed JSON body of the inbound request; `none` models an absent key. -/
structure Request where
  name : Option String
  email : Option String
  time : Option String
  duration : Option Int
  timezone : Option String
deriving DecidableEq, Repr

/-- Python falsiness of an optional string: `not x` is true for a missing
key (None) and for the empty string. -/
def falsy : Option String → Bool
  | none => true
  | some s => s == ""

/-- The upstream Cal.com response as the handlers observe it: the HTTP status
code, the body-level `status` field, the body-level `data` field (opaque),
and `res.text` (the raw body). -/
structure UpstreamResponse where
  status_code : Int
  body_status : Option String
  body_data : Option String
  text : String
deriving DecidableEq, Repr

/-- The outbound booking payload sent to Cal.com. -/
structure Payload where
  start : String
  eventTypeId : Int
  attendeeName : String
  attendeeEmail : String
  attendeeTimeZone : String
deriving DecidableEq, Repr

/-- The JSON bodies the handlers can answer with, one constructor per
distinct `jsonify` shape in the source. -/
inductive Body where
  /-- app.py line 50 / main.py line 137: missing required fields error. -/
  | missingFields
  /-- main.py line 143: invalid timezone error, carrying the zone string. -/
  | invalidTimezone (tz : String)
  /-- app.py line 57 (no details) / main.py line 157 (with details). -/
  | unparsableTime (t : String) (details : Option String)
  /-- slot-unavailable error with the oracle's reason and the window blurb. -/
  | slotUnavailable (reason : String) (availability : String)
  /-- app.py line 119: upstream failure forwarding `res.text`. -/
  | upstreamFailureText (details : String)
  /-- main.py line 203: upstream failure forwarding the parsed body. -/
  | upstreamFailureBody (details : UpstreamResponse)
  /-- app.py line 122: success with message and the whole upstream body. -/
  | bookingSuccess (message : String) (booking : UpstreamResponse)
  /-- main.py line 206: success with message and the body's `data` field. -/
  | bookingSuccessData (message : String) (booking : Option String)
  /-- the catch-all: "Internal Server Error" plus the exception description. -/
  | internalError (details : String)
deriving DecidableEq, Repr

/-- The external collaborators and process configuration a handler runs
against: the zone database, the date parser, the upstream booking API
(a function of the payload), and `CAL_EVENT_TYPE_ID`. -/
structure Collab where
  tzdb : TZDatabase
  dateParse : String → Except String ParsedDate
  upstream : Payload → UpstreamResponse
  eventTypeId : Int

/-- app.py lines 59-61: a zone-naive parse is localized to UTC; an aware
parse is left as parsed. -/
def normalizeApp (p : ParsedDate) : AwareDT :=
  match p.tzoffset with
  | none => ⟨p.wall, 0⟩
  | some o => ⟨p.wall - o, o⟩

/-- main.py lines 149-154: a zone-naive parse is localized to the declared
zone (`tz.localize`); an aware parse is converted into it (`astimezone(tz)`). -/
def normalizeMain (tzdb : TZDatabase) (zone : String) (p : ParsedDate) : AwareDT :=
  match p.tzoffset with
  | none =>
    let off := tzdb.localizeOffset zone p.wall
    ⟨p.wall - off, off⟩
  | some o => astimezone tzdb zone ⟨p.wall - o, o⟩

/-- app.py lines 80-88: the outbound payload; `start` is
`parsed_date.isoformat()` (no UTC conversion). -/
def appPayload (etid : Int) (name email tz : String) (parsed : AwareDT) : Payload :=
  { start := isoformat parsed, eventTypeId := etid,
    attendeeName := name, attendeeEmail := email, attendeeTimeZone := tz }

/-- main.py lines 171-182: the outbound payload; `start` is
`parsed_date.astimezone(pytz.UTC).isoformat()`. -/
def mainPayload (etid : Int) (name email tz : String) (parsed : AwareDT) : Payload :=
  { start := isoformat (astimezoneUTC parsed), eventTypeId := etid,
    attendeeName := name, attendeeEmail := email, attendeeTimeZone := tz }

/-- app.py lines 101-128: success whenever the body status is "success"
(lines 104-115 then fall through to line 122) or the HTTP status is 200;
500 forwarding `res.text` only when neither holds (lines 116-120). -/
def appUpstreamDecision (message : String) (res : UpstreamResponse) : Nat × Body :=
  if res.body_status == some "success" then
    (200, Body.bookingSuccess message res)
  else if res.status_code ≠ 200 then
    (500, Body.upstreamFailureText res.text)
  else
    (200, Body.bookingSuccess message res)

/-- main.py lines 201-212: success only when the HTTP status is 201 AND the
body status is "success"; otherwise 500 forwarding the parsed body. -/
def mainUpstreamDecision (message : String) (res : UpstreamResponse) : Nat × Body :=
  if res.status_code ≠ 201 ∨ res.body_status ≠ some "success" then
    (500, Body.upstreamFailureBody res)
  else
    (200, Body.bookingSuccessData message res.body_data)

/-- The body of the `try` block of `schedule_meeting` (app.py lines 42-128).
An uncaught Python exception is the `Except.error` branch; every `return`
is an `Except.ok`.  Note: no timezone validation — `pytz.timezone` first
runs inside `is_available_slot`, so an unknown zone raises there. -/
def schedule_meeting_body (c : Collab) (req : Request) : Except String (Nat × Body) :=
  let time_str := req.time
  let duration := req.duration.getD 30
  let user_timezone := req.timezone.getD "UTC"
  let _ := duration
  if falsy req.name || falsy req.email || falsy time_str then
    .ok (400, Body.missingFields)
  else
    match c.dateParse (time_str.getD "") with
    | .error _ => .ok (400, Body.unparsableTime (time_str.getD "") none)
    | .ok pd =>
      let parsed_date := normalizeApp pd
      match is_available_slot c.tzdb parsed_date user_timezone with
      | .error e => .error e
      | .ok (is_avail, avail_msg) =>
        if is_avail = false then
          .ok (400, Body.slotUnavailable avail_msg "Monday-Friday, 9:00 AM - 5:00 PM UTC")
        else
          let payload := appPayload c.eventTypeId (req.name.getD "") (req.email.getD "")
            user_timezone parsed_date
          let res := c.upstream payload
          .ok (appUpstreamDecision ("Meeting scheduled for " ++ pyStr parsed_date) res)

/-- The body of the `try` block of `schedule_meeting_tool` (main.py lines
129-212): missing-fields check, timezone validation, parse + normalize,
availability, payload, upstream decision. -/
def schedule_meeting_tool_body (c : Collab) (req : Request) : Except String (Nat × Body) :=
  let time_str := req.time
  let duration := req.duration.getD 30
  let user_timezone := req.timezone.getD "Europe/Amsterdam"
  let _ := duration
  if falsy req.name || falsy req.email || falsy time_str then
    .ok (400, Body.missingFields)
  else if c.tzdb.isKnown user_timezone = false then
    .ok (400, Body.invalidTimezone user_timezone)
  else
    match c.dateParse (time_str.getD "") with
    | .error e => .ok (400, Body.unparsableTime (time_str.getD "") (some e))
    | .ok pd =>
      let parsed_date := normalizeMain c.tzdb user_timezone pd
      match is_available_slot c.tzdb parsed_date user_timezone with
      | .error e => .error e
      | .ok (is_avail, avail_msg) =>
        if is_avail = false then
          .ok (400, Body.slotUnavailable avail_msg
            "Monday-Friday, 9:00 AM - 5:00 PM in your timezone")
        else
          let iso_date := isoformat (astimezoneUTC parsed_date)
          let payload := mainPayload c.eventTypeId (req.name.getD "") (req.email.getD "")
            user_timezone parsed_date
          let res := c.upstream payload
          .ok (mainUpstreamDecision ("Meeting scheduled for " ++ iso_date) res)

/-- The `except Exception` catch-all shared by both handlers (app.py lines
130-132, main.py lines 214-216): an uncaught internal exception becomes a
structured HTTP 500 with an "Internal Server Error" message and the
exception description. -/
def runHandler (r : Except String (Nat × Body)) : Nat × Body :=
  match r with
  | .ok res => res
  | .error e => (500, Body.internalError e)

/-- Handler of `POST /schedule` in src/app.py (lines 39-132). -/
def schedule_meeting (c : Collab) (req : Request) : Nat × Body :=
  runHandler (schedule_meeting_body c req)

/-- Handler of `POST /tools/schedule_meeting` in src/main.py (lines 122-216). -/
def schedule_meeting_tool (c : Collab) (req : Request) : Nat × Body :=
  runHandler (schedule_meeting_tool_body c req)

/-- Whether a response body is the catch-all InternalError shape. -/
def isInternalErrorBody : Body → Bool
  | Body.internalError _ => true
  | _ => false

/-- A concrete instance of the external timezone database, fixed at the
standard (non-DST) offsets in effect in January 2025, per the spec's
known-offset round-trip note: UTC at offset 0 and America/New_York at
UTC-05:00; every other name is unrecognized. -/
def tzdbTest : TZDatabase :=
  { isKnown := fun z => z == "UTC" || z == "America/New_York",
    utcOffset := fun z _ => if z == "America/New_York" then -300 else 0,
    localizeOffset := fun z _ => if z == "America/New_York" then -300 else 0 }

/-- A concrete instance of the external fuzzy date parser, fixed on the two
inputs the tests exercise. -/
def dateParseTest (s : String) : Except String ParsedDate :=
  if s == "2025-01-10 10:00" then .ok ⟨epochMin 2025 1 10 10 0, none⟩
  else if s == "2025-01-10 12:00+02:00" then .ok ⟨epochMin 2025 1 10 12 0, some 120⟩
  else .error "ParserError"

/-- A concrete collaborator bundle: the test zone database and parser, an
upstream that books successfully (HTTP 201, status "success"), and event
type 12345. -/
def collabTest : Collab :=
  { tzdb := tzdbTest,
    dateParse := dateParseTest,
    upstream := fun _ =>
      { status_code := 201, body_status := some "success",
        body_data := some "bookingRecord", text := "created" },
    eventTypeId := 12345 }

/-- collabTest with an upstream that answers HTTP 200 and body status
"error" — the degenerate upstream outcome of claim C4. -/
def collab200err : Collab :=
  { collabTest with
    upstream := fun _ =>
      { status_code := 200, body_status := some "error",
        body_data := none, text := "error-text" } }

/-- A well-formed request in UTC used as the happy-path fixture. -/
def reqGood : Request :=
  { name := some "Alice", email := some "alice@example.com",
    time := some "2025-01-10 10:00", duration := none, timezone := some "UTC" }

/-- reqGood with an unrecognized timezone name. -/
def reqMars : Request :=
  { reqGood with timezone := some "Mars/Phobos" }

/-- reqGood declared in America/New_York, with a zone-naive time string. -/
def reqNY : Request :=
  { reqGood with timezone := some "America/New_York" }

example : pyWeekday (epochMin 2025 1 10 0 0) = 4 := by decide
example : pyWeekday (epochMin 2025 1 11 0 0) = 5 := by decide
example : pyWeekday (epochMin 2025 1 12 0 0) = 6 := by decide
example : pyWeekday (epochMin 2025 1 13 0 0) = 0 := by decide
example : civilFromDays (daysFromCivil 2025 1 10) = (2025, 1, 10) := by decide
example : pyHour (epochMin 2025 1 10 16 59) = 16 := by decide

example : isoformat ⟨epochMin 2025 1 10 15 0, 0⟩ = "2025-01-10T15:00:00+00:00" := by decide
example : isoformat ⟨epochMin 2025 1 10 15 0, -300⟩ = "2025-01-10T10:00:00-05:00" := by decide

example : schedule_meeting collabTest reqGood =
    (200, Body.bookingSuccess ("Meeting scheduled for 2025-01-10 10:00:00+00:00")
      { status_code := 201, body_status := some "success",
        body_data := some "bookingRecord", text := "created" }) := by decide

/-- C1: for every timezone-aware instant and every recognized zone name, the
availability check returns available if and only if the local wall-clock
weekday is Monday-Friday (weekday index < 5) and the local hour lies in
[9, 17).  The boundary cases follow: local 08:59 has hour 8 (< 9) and 17:00
has hour 17 (≥ 17), so both are unavailable, while 09:00 and 16:59 have
hours 9 and 16 and are available on a weekday. -/
theorem C1_availability_iff (tzdb : TZDatabase) (dt : AwareDT) (zone : String)
    (h : tzdb.isKnown zone = true) :
    is_available_slot tzdb dt zone = .ok (true, "Available") ↔
      (pyWeekday (dt.instant + tzdb.utcOffset zone dt.instant) < 5 ∧
       9 ≤ pyHour (dt.instant + tzdb.utcOffset zone dt.instant) ∧
       pyHour (dt.instant + tzdb.utcOffset zone dt.instant) < 17) := by
  unfold is_available_slot astimezone
  rw [h]
  simp only [if_true]
  split_ifs with h1 h2
  · constructor
    · intro he
      exact absurd he (by simp)
    · intro hc
      exact absurd h1 (by omega)
  · constructor
    · intro he
      exact absurd he (by simp)
    · intro hc
      exact absurd h2 (by omega)
  · constructor
    · intro _
      push_neg at h1 h2
      omega
    · intro _
      rfl

/-- Witness for C1 at a concrete input: Friday 2025-01-10 16:59 UTC is
available. -/
theorem C1_availability_iff_witness :
    is_available_slot tzdbTest ⟨epochMin 2025 1 10 16 59, 0⟩ "UTC" = .ok (true, "Available") :=
  (C1_availability_iff tzdbTest ⟨epochMin 2025 1 10 16 59, 0⟩ "UTC" (by decide)).mpr (by decide)

/-- C6: on a weekend local time the check rejects with a reason naming the
local weekday via the weekday-name table, and on a weekday local time
outside [9, 17) it rejects with a reason stating the 9 AM - 5 PM window and
the offending local hour. -/
theorem C6_rejection_reasons (tzdb : TZDatabase) (dt : AwareDT) (zone : String)
    (h : tzdb.isKnown zone = true) :
    (5 ≤ pyWeekday (dt.instant + tzdb.utcOffset zone dt.instant) →
      is_available_slot tzdb dt zone = .ok (false, "Not available on " ++
        weekdayName (pyWeekday (dt.instant + tzdb.utcOffset zone dt.instant)))) ∧
    (pyWeekday (dt.instant + tzdb.utcOffset zone dt.instant) < 5 →
      (pyHour (dt.instant + tzdb.utcOffset zone dt.instant) < 9 ∨
       17 ≤ pyHour (dt.instant + tzdb.utcOffset zone dt.instant)) →
      is_available_slot tzdb dt zone = .ok (false,
        "Outside business hours (9 AM - 5 PM). Requested: " ++
          toString (pyHour (dt.instant + tzdb.utcOffset zone dt.instant)) ++ ":00")) := by
  unfold is_available_slot astimezone
  rw [h]
  simp only [if_true]
  constructor
  · intro hw
    rw [if_pos (by omega)]
  · intro hw hh
    rw [if_neg (by omega), if_pos (by omega)]

/-- Witness for C6 at a concrete input: Saturday 2025-01-11 10:00 UTC is
rejected with the weekday named in the reason. -/
theorem C6_rejection_reasons_witness :
    is_available_slot tzdbTest ⟨epochMin 2025 1 11 10 0, 0⟩ "UTC" =
      .ok (false, "Not available on Saturday") := by
  have h := (C6_rejection_reasons tzdbTest ⟨epochMin 2025 1 11 10 0, 0⟩ "UTC"
    (by decide)).1 (by decide)
  exact h.trans (by decide)

/-- Counterexample to C2: the app.py variant localizes a zone-naive parse to
UTC, not to the declared timezone.  Normalizing the naive wall time
2025-01-10 10:00 yields the instant 2025-01-10T10:00Z, not the claimed
2025-01-10T15:00Z, and end-to-end the `/schedule` handler with declared
timezone America/New_York then rejects the slot (local hour 5) instead of
booking 15:00 UTC. -/
theorem C2_counterexample :
    (normalizeApp ⟨epochMin 2025 1 10 10 0, none⟩).instant = epochMin 2025 1 10 10 0 ∧
    epochMin 2025 1 10 10 0 ≠ epochMin 2025 1 10 15 0 ∧
    schedule_meeting collabTest reqNY =
      (400, Body.slotUnavailable "Outside business hours (9 AM - 5 PM). Requested: 5:00"
        "Monday-Friday, 9:00 AM - 5:00 PM UTC") := by decide

/-- C2 amended: the main.py normalizer attaches the declared timezone to a
zone-naive parse (instant = wall minus the zone's localize offset), so the
naive string 2025-01-10 10:00 declared in America/New_York normalizes to
2025-01-10T15:00:00+00:00; the app.py normalizer instead attaches UTC
(instant = wall). -/
theorem C2_naive_localization (tzdb : TZDatabase) (zone : String) (w : Int) :
    (normalizeMain tzdb zone ⟨w, none⟩).instant = w - tzdb.localizeOffset zone w ∧
    (normalizeApp ⟨w, none⟩).instant = w ∧
    (normalizeMain tzdbTest "America/New_York" ⟨epochMin 2025 1 10 10 0, none⟩).instant =
      epochMin 2025 1 10 15 0 ∧
    isoformat (astimezoneUTC (normalizeMain tzdbTest "America/New_York"
      ⟨epochMin 2025 1 10 10 0, none⟩)) = "2025-01-10T15:00:00+00:00" :=
  ⟨rfl, rfl, by decide, by decide⟩

/-- Counterexample to C3: the app.py payload builder emits `start` as the
normalized datetime's own isoformat, so a parse carrying a +02:00 offset is
transmitted with that offset, not converted to UTC (+00:00). -/
theorem C3_counterexample :
    (appPayload 12345 "Alice" "alice@example.com" "UTC"
      ⟨epochMin 2025 1 10 10 0, 120⟩).start = "2025-01-10T12:00:00+02:00" ∧
    isoformat (astimezoneUTC ⟨epochMin 2025 1 10 10 0, 120⟩) =
      "2025-01-10T10:00:00+00:00" ∧
    ("2025-01-10T12:00:00+02:00" : String) ≠ "2025-01-10T10:00:00+00:00" := by decide

/-- C3 amended: in the main.py variant `start` is always the ISO-8601 string
of the normalized instant converted to UTC (offset zero); in the app.py
variant `start` is the ISO-8601 string of the normalized datetime with its
original offset — the same instant, but a +00:00 offset is not guaranteed. -/
theorem C3_start_field (etid : Int) (n e tz : String) (dt : AwareDT) :
    (mainPayload etid n e tz dt).start = isoformat ⟨dt.instant, 0⟩ ∧
    (appPayload etid n e tz dt).start = isoformat dt :=
  ⟨rfl, rfl⟩

/-- Counterexample to C4: on an upstream HTTP 200 response whose body status
is "error", the app.py handler answers 200 success (echoing the upstream
body), not the claimed 500. -/
theorem C4_counterexample :
    schedule_meeting collab200err reqGood =
      (200, Body.bookingSuccess "Meeting scheduled for 2025-01-10 10:00:00+00:00"
        { status_code := 200, body_status := some "error",
          body_data := none, text := "error-text" }) ∧
    (200 : Nat) ≠ 500 := by decide

/-- C4 amended: the main.py upstream inspection treats the booking as
successful iff the upstream HTTP status is 201 and the body status is
"success", answering 500 and forwarding the upstream body otherwise; the
app.py inspection is more permissive, succeeding whenever the body status
is "success" or the HTTP status is 200. -/
theorem C4_upstream_decisions (msg : String) (res : UpstreamResponse) :
    ((mainUpstreamDecision msg res).1 = 200 ↔
      (res.status_code = 201 ∧ res.body_status = some "success")) ∧
    (¬(res.status_code = 201 ∧ res.body_status = some "success") →
      mainUpstreamDecision msg res = (500, Body.upstreamFailureBody res)) ∧
    ((appUpstreamDecision msg res).1 = 200 ↔
      (res.body_status = some "success" ∨ res.status_code = 200)) := by
  unfold mainUpstreamDecision appUpstreamDecision
  refine ⟨?_, ?_, ?_⟩
  · split_ifs with h1
    · simp only [show (500 : Nat) ≠ 200 from by decide, false_iff]
      tauto
    · simp only [not_or, not_not] at h1
      simp [h1]
  · intro hc
    rw [if_pos (by tauto)]
  · split_ifs with h1 h2
    · simp only [beq_iff_eq] at h1
      simp [h1]
    · simp only [beq_iff_eq] at h1
      simp only [show (500 : Nat) ≠ 200 from by decide, false_iff]
      tauto
    · simp only [beq_iff_eq] at h1
      push_neg at h2
      simp [h2]

/-- Witness for C4 amended at a concrete upstream outcome: HTTP 200 with
body status "error" makes the main.py inspection answer 500 forwarding the
body. -/
theorem C4_upstream_decisions_witness :
    mainUpstreamDecision "m"
      { status_code := 200, body_status := some "error", body_data := none, text := "t" } =
      (500, Body.upstreamFailureBody
        { status_code := 200, body_status := some "error", body_data := none, text := "t" }) :=
  (C4_upstream_decisions "m"
    { status_code := 200, body_status := some "error", body_data := none, text := "t" }).2.1
    (by decide)

/-- Counterexample to C5: the app.py handler never validates the timezone, so
the unknown zone raises inside the availability check and the catch-all
answers HTTP 500 Internal Server Error, not the claimed 400. -/
theorem C5_counterexample :
    schedule_meeting collabTest reqMars = (500, Body.internalError "Mars/Phobos") ∧
    (500 : Nat) ≠ 400 := by decide

/-- C5 amended: the main.py handler validates the declared timezone right
after the missing-fields check and answers HTTP 400 with an
invalid-timezone error for every unrecognized zone name; the app.py handler
instead surfaces the unknown zone as a 500 InternalError via its catch-all. -/
theorem C5_invalid_timezone (c : Collab) (req : Request)
    (hn : falsy req.name = false) (he : falsy req.email = false)
    (ht : falsy req.time = false)
    (hz : c.tzdb.isKnown (req.timezone.getD "Europe/Amsterdam") = false) :
    schedule_meeting_tool c req =
      (400, Body.invalidTimezone (req.timezone.getD "Europe/Amsterdam")) := by
  unfold schedule_meeting_tool runHandler schedule_meeting_tool_body
  simp [hn, he, ht, hz]

/-- Witness for C5 amended: the MCP handler answers 400 on "Mars/Phobos". -/
theorem C5_invalid_timezone_witness :
    schedule_meeting_tool collabTest reqMars = (400, Body.invalidTimezone "Mars/Phobos") :=
  C5_invalid_timezone collabTest reqMars (by decide) (by decide) (by decide) (by decide)

/-- C7: whenever name, email or time is absent from the request body, both
handlers answer HTTP 400 with the missing-fields error; since the result is
pinned for every collaborator bundle (in particular every upstream
function), no outbound booking call can influence it, i.e. none is made. -/
theorem C7_missing_fields (c : Collab) (req : Request)
    (h : req.name = none ∨ req.email = none ∨ req.time = none) :
    schedule_meeting c req = (400, Body.missingFields) ∧
    schedule_meeting_tool c req = (400, Body.missingFields) := by
  have hcond : (falsy req.name || falsy req.email || falsy req.time) = true := by
    rcases h with h | h | h <;> simp [h, falsy]
  unfold schedule_meeting schedule_meeting_tool runHandler
    schedule_meeting_body schedule_meeting_tool_body
  simp only [hcond, if_true]
  exact ⟨trivial, trivial⟩

/-- Witness for C7: a request lacking the name field is answered 400 by both
handlers. -/
theorem C7_missing_fields_witness :
    schedule_meeting collabTest { reqGood with name := none } = (400, Body.missingFields) ∧
    schedule_meeting_tool collabTest { reqGood with name := none } = (400, Body.missingFields) :=
  C7_missing_fields collabTest { reqGood with name := none } (Or.inl rfl)

/-- C10: a present-but-empty name, email or time field is falsy in Python, so
both handlers answer the same HTTP 400 missing-fields error as for an
absent field; the pinned result for every collaborator bundle shows the
empty string never reaches normalization or the upstream call. -/
theorem C10_empty_fields (c : Collab) (req : Request)
    (h : req.name = some "" ∨ req.email = some "" ∨ req.time = some "") :
    schedule_meeting c req = (400, Body.missingFields) ∧
    schedule_meeting_tool c req = (400, Body.missingFields) := by
  have hcond : (falsy req.name || falsy req.email || falsy req.time) = true := by
    rcases h with h | h | h <;> simp [h, falsy]
  unfold schedule_meeting schedule_meeting_tool runHandler
    schedule_meeting_body schedule_meeting_tool_body
  simp only [hcond, if_true]
  exact ⟨trivial, trivial⟩

/-- Witness for C10: an empty email string is answered 400 by both handlers. -/
theorem C10_empty_fields_witness :
    schedule_meeting collabTest { reqGood with email := some "" } = (400, Body.missingFields) ∧
    schedule_meeting_tool collabTest { reqGood with email := some "" } = (400, Body.missingFields) :=
  C10_empty_fields collabTest { reqGood with email := some "" } (Or.inr (Or.inl rfl))

/-- C9: the duration field is read but never used, so two requests differing
only in duration (absent versus any value, in particular the default 30)
produce identical behaviour from both handlers — same outbound payload
(the payload builders do not take duration) and, for the same upstream
function, the same HTTP response. -/
theorem C9_duration_irrelevant (c : Collab) (req : Request) (d₁ d₂ : Option Int) :
    schedule_meeting c { req with duration := d₁ } =
      schedule_meeting c { req with duration := d₂ } ∧
    schedule_meeting_tool c { req with duration := d₁ } =
      schedule_meeting_tool c { req with duration := d₂ } :=
  ⟨rfl, rfl⟩

/-- Auxiliary: the app.py upstream inspection never yields the InternalError
shape. -/
lemma appUpstreamDecision_not_internal (m : String) (res : UpstreamResponse) :
    isInternalErrorBody (appUpstreamDecision m res).2 = false := by
  unfold appUpstreamDecision
  split_ifs <;> rfl

/-- Auxiliary: the main.py upstream inspection never yields the InternalError
shape. -/
lemma mainUpstreamDecision_not_internal (m : String) (res : UpstreamResponse) :
    isInternalErrorBody (mainUpstreamDecision m res).2 = false := by
  unfold mainUpstreamDecision
  split_ifs <;> rfl

/-- Auxiliary: every `return` of app.py's try block carries a specific
(non-InternalError) body. -/
lemma schedule_meeting_body_ok_not_internal (c : Collab) (req : Request)
    (r : Nat × Body) (hr : schedule_meeting_body c req = .ok r) :
    isInternalErrorBody r.2 = false := by
  unfold schedule_meeting_body at hr
  dsimp only at hr
  split at hr
  · cases hr; rfl
  · split at hr
    · cases hr; rfl
    · split at hr
      · exact absurd hr (by simp)
      · split at hr
        · cases hr; rfl
        · cases hr
          exact appUpstreamDecision_not_internal _ _

/-- Auxiliary: every `return` of main.py's try block carries a specific
(non-InternalError) body. -/
lemma schedule_meeting_tool_body_ok_not_internal (c : Collab) (req : Request)
    (r : Nat × Body) (hr : schedule_meeting_tool_body c req = .ok r) :
    isInternalErrorBody r.2 = false := by
  unfold schedule_meeting_tool_body at hr
  dsimp only at hr
  split at hr
  · cases hr; rfl
  · split at hr
    · cases hr; rfl
    · split at hr
      · cases hr; rfl
      · split at hr
        · exact absurd hr (by simp)
        · split at hr
          · cases hr; rfl
          · cases hr
            exact mainUpstreamDecision_not_internal _ _

/-- C8: both handlers are total functions of the request and collaborators —
every outcome is a structured status/body pair.  Any internal exception of
the try block (an `Except.error` of the body) is answered as HTTP 500 with
the InternalError body carrying the exception description, and every
ordinary `return` of the try block passes through the catch-all unchanged
and carries one of the specific (non-InternalError) bodies, so the
catch-all never masks the specific error kinds. -/
theorem C8_catch_all_safety_net (c : Collab) (req : Request) :
    (∀ e, schedule_meeting_body c req = .error e →
      schedule_meeting c req = (500, Body.internalError e)) ∧
    (∀ r, schedule_meeting_body c req = .ok r →
      schedule_meeting c req = r ∧ isInternalErrorBody r.2 = false) ∧
    (∀ e, schedule_meeting_tool_body c req = .error e →
      schedule_meeting_tool c req = (500, Body.internalError e)) ∧
    (∀ r, schedule_meeting_tool_body c req = .ok r →
      schedule_meeting_tool c req = r ∧ isInternalErrorBody r.2 = false) := by
  refine ⟨?_, ?_, ?_, ?_⟩
  · intro e he
    unfold schedule_meeting runHandler
    rw [he]
  · intro r hr
    refine ⟨?_, schedule_meeting_body_ok_not_internal c req r hr⟩
    unfold schedule_meeting runHandler
    rw [hr]
  · intro e he
    unfold schedule_meeting_tool runHandler
    rw [he]
  · intro r hr
    refine ⟨?_, schedule_meeting_tool_body_ok_not_internal c req r hr⟩
    unfold schedule_meeting_tool runHandler
    rw [hr]

/-- Witness for C8 at a concrete input: the app.py try block raises on the
unknown zone of reqMars, and the catch-all answers the structured 500. -/
theorem C8_catch_all_safety_net_witness :
    schedule_meeting collabTest reqMars = (500, Body.internalError "Mars/Phobos") :=
  (C8_catch_all_safety_net collabTest reqMars).1 "Mars/Phobos" (by decide)
